import Mathlib

/-!
Shallow embedding of the conversion webhook service
(`cmd/webhook/main.go`, `pkg/webhook/handler.go`, `pkg/webhook/conversion.go`,
`pkg/webhook/types.go`).

JSON documents are modelled by the inductive `Json`; the raw bytes carried by
`runtime.RawExtension` are modelled by the `Json` value they encode (a JSON
`null` element in an `objects` array is stored by `RawExtension.UnmarshalJSON`
as empty raw bytes, so a later `json.Unmarshal` of it fails; the model keeps
`Json.null` as the raw value and makes every top-level typed decode of it
fail, matching that behaviour).  The Go `encoding/json` decoders used by the
handler are modelled per struct: a present field of the wrong JSON type makes
the whole decode fail (the handler discards partially-filled values on error),
a missing or `null` field leaves the zero value, and unknown object keys are
ignored.  Only the `ObjectMeta` fields the programme can observe (`name`,
`namespace`, `labels`) are modelled; the remaining upstream fields behave like
ignored unknown keys and are omitted on re-serialisation.
-/

set_option autoImplicit false

namespace ConversionWebhook

/-- A JSON value (object fields in document order). -/
inductive Json where
  | null : Json
  | bool (b : Bool) : Json
  | num (n : Int) : Json
  | str (s : String) : Json
  | arr (elems : List Json) : Json
  | obj (fields : List (String × Json)) : Json
deriving Repr

/-- Field lookup on a JSON object; `none` on non-objects and missing keys. -/
def Json.getField : Json → String → Option Json
  | .obj fields, k => fields.lookup k
  | _, _ => none

/-- `metav1.TypeMeta`: the minimal pre-parse target of the handler. -/
structure TypeMeta where
  Kind : String
  APIVersion : String
deriving Repr, DecidableEq

/-- The `metav1.ObjectMeta` fields observable through this programme. -/
structure ObjectMeta where
  Name : String
  Namespace : String
  Labels : List (String × String)
deriving Repr, DecidableEq

/-- `ExampleV1Spec` (`pkg/webhook/types.go`): a single string field. -/
structure ExampleV1Spec where
  Field1 : String
deriving Repr, DecidableEq

/-- `ExampleV2Spec` (`pkg/webhook/types.go`): two string fields. -/
structure ExampleV2Spec where
  Field1 : String
  Field2 : String
deriving Repr, DecidableEq

/-- `ExampleV1` (`pkg/webhook/types.go`); `Status` is an opaque
`interface\x7b\x7d` value, `none` when absent or JSON `null`. -/
structure ExampleV1 where
  typeMeta : TypeMeta
  objectMeta : ObjectMeta
  Spec : ExampleV1Spec
  Status : Option Json
deriving Repr

/-- `ExampleV2` (`pkg/webhook/types.go`). -/
structure ExampleV2 where
  typeMeta : TypeMeta
  objectMeta : ObjectMeta
  Spec : ExampleV2Spec
  Status : Option Json
deriving Repr

/-- `runtime.RawExtension`: an opaque serialized payload. -/
structure RawExtension where
  Raw : Json
deriving Repr

/-- The part of `metav1.Status` this programme sets and serialises. -/
structure MetaV1Status where
  Status : String
deriving Repr, DecidableEq

/-- `apiextensionsv1.ConversionRequest`. -/
structure ConversionRequest where
  UID : String
  DesiredAPIVersion : String
  Objects : List RawExtension
deriving Repr

/-- `apiextensionsv1.ConversionResponse`. -/
structure ConversionResponse where
  UID : String
  ConvertedObjects : List RawExtension
  Result : MetaV1Status
deriving Repr

/-- `apiextensionsv1.ConversionReview`; `Request`/`Response` are pointers in
Go, hence `Option`. -/
structure ConversionReview where
  typeMeta : TypeMeta
  Request : Option ConversionRequest
  Response : Option ConversionResponse
deriving Repr

/-! ### Go `encoding/json` decoding, modelled per struct -/

/-- Decode a string-typed struct field from an object's field list: absent or
`null` leaves the zero value `""`; any other non-string value is an error. -/
def unmarshalStringField (fields : List (String × Json)) (key : String) :
    Except String String :=
  match fields.lookup key with
  | none => .ok ""
  | some .null => .ok ""
  | some (.str s) => .ok s
  | some _ => .error ("cannot unmarshal value into field " ++ key ++ " of type string")

/-- Decode `kind`/`apiVersion` out of an object's field list. -/
def unmarshalTypeMetaFields (fields : List (String × Json)) :
    Except String TypeMeta := do
  let kind ← unmarshalStringField fields "kind"
  let apiVersion ← unmarshalStringField fields "apiVersion"
  .ok { Kind := kind, APIVersion := apiVersion }

/-- `json.Unmarshal(raw, &metav1.TypeMeta\x7b\x7d)` on a raw payload: only a JSON
object decodes; `null` models the empty raw bytes `RawExtension` keeps for a
JSON `null` element, whose decode fails with an end-of-input error. -/
def unmarshalTypeMeta : Json → Except String TypeMeta
  | .obj fields => unmarshalTypeMetaFields fields
  | .null => .error "unexpected end of JSON input"
  | _ => .error "cannot unmarshal value into TypeMeta"

/-- Decode `map[string]string` entries (label values must be strings;
`null` sets the zero value). -/
def unmarshalLabelPairs : List (String × Json) → Except String (List (String × String))
  | [] => .ok []
  | (k, .str v) :: rest => do
    let tail ← unmarshalLabelPairs rest
    .ok ((k, v) :: tail)
  | (k, .null) :: rest => do
    let tail ← unmarshalLabelPairs rest
    .ok ((k, "") :: tail)
  | (k, _) :: _ => .error ("cannot unmarshal label value of key " ++ k)

/-- Decode the `metadata` field into `ObjectMeta`: absent or `null` leaves the
zero value; a non-object is an error. -/
def unmarshalObjectMeta : Option Json → Except String ObjectMeta
  | none => .ok { Name := "", Namespace := "", Labels := [] }
  | some .null => .ok { Name := "", Namespace := "", Labels := [] }
  | some (.obj fields) => do
    let name ← unmarshalStringField fields "name"
    let ns ← unmarshalStringField fields "namespace"
    let labels ←
      match fields.lookup "labels" with
      | none => Except.ok ([] : List (String × String))
      | some .null => Except.ok ([] : List (String × String))
      | some (.obj lf) => unmarshalLabelPairs lf
      | some _ => Except.error "cannot unmarshal value into field labels"
    .ok { Name := name, Namespace := ns, Labels := labels }
  | some _ => .error "cannot unmarshal value into ObjectMeta"

/-- Decode the opaque `status` field (`interface\x7b\x7d`): any JSON value is
accepted; absent or `null` leaves the nil interface. -/
def unmarshalStatusValue (v : Option Json) : Option Json :=
  match v with
  | none => none
  | some .null => none
  | some j => some j

/-- Decode the `spec` field into `ExampleV1Spec`: unknown keys (such as a
`field2` present in the raw payload) are ignored. -/
def unmarshalExampleV1Spec : Option Json → Except String ExampleV1Spec
  | none => .ok { Field1 := "" }
  | some .null => .ok { Field1 := "" }
  | some (.obj fields) => do
    let f1 ← unmarshalStringField fields "field1"
    .ok { Field1 := f1 }
  | some _ => .error "cannot unmarshal value into ExampleV1Spec"

/-- Decode the `spec` field into `ExampleV2Spec`. -/
def unmarshalExampleV2Spec : Option Json → Except String ExampleV2Spec
  | none => .ok { Field1 := "", Field2 := "" }
  | some .null => .ok { Field1 := "", Field2 := "" }
  | some (.obj fields) => do
    let f1 ← unmarshalStringField fields "field1"
    let f2 ← unmarshalStringField fields "field2"
    .ok { Field1 := f1, Field2 := f2 }
  | some _ => .error "cannot unmarshal value into ExampleV2Spec"

/-- `json.Unmarshal(raw, &ExampleV1\x7b\x7d)` on a raw payload. -/
def unmarshalExampleV1 : Json → Except String ExampleV1
  | .obj fields => do
    let tm ← unmarshalTypeMetaFields fields
    let meta ← unmarshalObjectMeta (fields.lookup "metadata")
    let spec ← unmarshalExampleV1Spec (fields.lookup "spec")
    .ok { typeMeta := tm, objectMeta := meta, Spec := spec,
          Status := unmarshalStatusValue (fields.lookup "status") }
  | .null => .error "unexpected end of JSON input"
  | _ => .error "cannot unmarshal value into ExampleV1"

/-- `json.Unmarshal(raw, &ExampleV2\x7b\x7d)` on a raw payload. -/
def unmarshalExampleV2 : Json → Except String ExampleV2
  | .obj fields => do
    let tm ← unmarshalTypeMetaFields fields
    let meta ← unmarshalObjectMeta (fields.lookup "metadata")
    let spec ← unmarshalExampleV2Spec (fields.lookup "spec")
    .ok { typeMeta := tm, objectMeta := meta, Spec := spec,
          Status := unmarshalStatusValue (fields.lookup "status") }
  | .null => .error "unexpected end of JSON input"
  | _ => .error "cannot unmarshal value into ExampleV2"

/-- Decode the `request` field into `*ConversionRequest`: `null`/absent leaves
the nil pointer; each entry of `objects` is kept as raw bytes
(`RawExtension` accepts any JSON value). -/
def unmarshalConversionRequest : Json → Except String ConversionRequest
  | .obj fields => do
    let uid ← unmarshalStringField fields "uid"
    let desired ← unmarshalStringField fields "desiredAPIVersion"
    let objects ←
      match fields.lookup "objects" with
      | none => Except.ok ([] : List RawExtension)
      | some .null => Except.ok ([] : List RawExtension)
      | some (.arr elems) => Except.ok (elems.map RawExtension.mk)
      | some _ => Except.error "cannot unmarshal value into field objects"
    .ok { UID := uid, DesiredAPIVersion := desired, Objects := objects }
  | _ => .error "cannot unmarshal value into ConversionRequest"

/-- Decode the `result` field into the modelled part of `metav1.Status`. -/
def unmarshalMetaV1Status : Option Json → Except String MetaV1Status
  | none => .ok { Status := "" }
  | some .null => .ok { Status := "" }
  | some (.obj fields) => do
    let s ← unmarshalStringField fields "status"
    .ok { Status := s }
  | some _ => .error "cannot unmarshal value into Status"

/-- Decode the `response` field into `*ConversionResponse`. -/
def unmarshalConversionResponse : Json → Except String ConversionResponse
  | .obj fields => do
    let uid ← unmarshalStringField fields "uid"
    let objects ←
      match fields.lookup "convertedObjects" with
      | none => Except.ok ([] : List RawExtension)
      | some .null => Except.ok ([] : List RawExtension)
      | some (.arr elems) => Except.ok (elems.map RawExtension.mk)
      | some _ => Except.error "cannot unmarshal value into field convertedObjects"
    let result ← unmarshalMetaV1Status (fields.lookup "result")
    .ok { UID := uid, ConvertedObjects := objects, Result := result }
  | _ => .error "cannot unmarshal value into ConversionResponse"

/-- `json.Unmarshal(body, &review)`: the body is a whole JSON document here,
so a top-level `null` succeeds and leaves the zero `ConversionReview`
(both pointers nil). -/
def unmarshalConversionReview : Json → Except String ConversionReview
  | .null => .ok { typeMeta := { Kind := "", APIVersion := "" },
                   Request := none, Response := none }
  | .obj fields => do
    let tm ← unmarshalTypeMetaFields fields
    let request ←
      match fields.lookup "request" with
      | none => Except.ok (none : Option ConversionRequest)
      | some .null => Except.ok (none : Option ConversionRequest)
      | some j => Except.map some (unmarshalConversionRequest j)
    let response ←
      match fields.lookup "response" with
      | none => Except.ok (none : Option ConversionResponse)
      | some .null => Except.ok (none : Option ConversionResponse)
      | some j => Except.map some (unmarshalConversionResponse j)
    .ok { typeMeta := tm, Request := request, Response := response }
  | _ => .error "cannot unmarshal value into ConversionReview"

/-! ### The conversion functions (`pkg/webhook/conversion.go`) -/

/-- `convertV1ToV2`: copies the metadata and status, keeps `field1`, and adds
the default for the new `field2`. -/
def convertV1ToV2 (v1Obj : ExampleV1) : ExampleV2 :=
  { typeMeta := { APIVersion := "conversion.example.com/v2", Kind := "Example" }
    objectMeta := v1Obj.objectMeta
    Spec := { Field1 := v1Obj.Spec.Field1
              Field2 := "default-v2-value" }
    Status := v1Obj.Status }

/-- `convertV2ToV1`: copies the metadata and status and keeps `field1`;
`field2` is dropped when converting to v1. -/
def convertV2ToV1 (v2Obj : ExampleV2) : ExampleV1 :=
  { typeMeta := { APIVersion := "conversion.example.com/v1", Kind := "Example" }
    objectMeta := v2Obj.objectMeta
    Spec := { Field1 := v2Obj.Spec.Field1 }
    Status := v2Obj.Status }

/-! ### Go `encoding/json` encoding of the structs the handler serialises -/

/-- Marshal the inline `metav1.TypeMeta` fields (`omitempty` on both). -/
def marshalTypeMetaFields (tm : TypeMeta) : List (String × Json) :=
  (if tm.Kind = "" then [] else [("kind", Json.str tm.Kind)]) ++
  (if tm.APIVersion = "" then [] else [("apiVersion", Json.str tm.APIVersion)])

/-- Marshal `ObjectMeta` (modelled fields only, each `omitempty`). -/
def marshalObjectMeta (m : ObjectMeta) : Json :=
  Json.obj
    ((if m.Name = "" then [] else [("name", Json.str m.Name)]) ++
     (if m.Namespace = "" then [] else [("namespace", Json.str m.Namespace)]) ++
     (if m.Labels = [] then []
      else [("labels", Json.obj (m.Labels.map (fun p => (p.1, Json.str p.2))))]))

/-- Marshal the opaque status value (`omitempty`: omitted when nil). -/
def marshalStatusFields (s : Option Json) : List (String × Json) :=
  match s with
  | none => []
  | some j => [("status", j)]

/-- Marshal `ExampleV1Spec` (`field1` has `omitempty`). -/
def marshalExampleV1Spec (s : ExampleV1Spec) : Json :=
  Json.obj (if s.Field1 = "" then [] else [("field1", Json.str s.Field1)])

/-- Marshal `ExampleV2Spec` (both fields `omitempty`). -/
def marshalExampleV2Spec (s : ExampleV2Spec) : Json :=
  Json.obj
    ((if s.Field1 = "" then [] else [("field1", Json.str s.Field1)]) ++
     (if s.Field2 = "" then [] else [("field2", Json.str s.Field2)]))

/-- `json.Marshal` of an `ExampleV1` value. -/
def marshalExampleV1 (e : ExampleV1) : Json :=
  Json.obj
    (marshalTypeMetaFields e.typeMeta ++
     [("metadata", marshalObjectMeta e.objectMeta),
      ("spec", marshalExampleV1Spec e.Spec)] ++
     marshalStatusFields e.Status)

/-- `json.Marshal` of an `ExampleV2` value. -/
def marshalExampleV2 (e : ExampleV2) : Json :=
  Json.obj
    (marshalTypeMetaFields e.typeMeta ++
     [("metadata", marshalObjectMeta e.objectMeta),
      ("spec", marshalExampleV2Spec e.Spec)] ++
     marshalStatusFields e.Status)

/-- Marshal the modelled part of `metav1.Status` (upstream always emits the
`metadata` ListMeta struct; `status` has `omitempty`). -/
def marshalMetaV1Status (s : MetaV1Status) : Json :=
  Json.obj
    ([("metadata", Json.obj [])] ++
     (if s.Status = "" then [] else [("status", Json.str s.Status)]))

/-- Marshal a `ConversionRequest` (`objects` has `omitempty`). -/
def marshalConversionRequest (req : ConversionRequest) : Json :=
  Json.obj
    ([("uid", Json.str req.UID),
      ("desiredAPIVersion", Json.str req.DesiredAPIVersion)] ++
     (match req.Objects with
      | [] => []
      | objs => [("objects", Json.arr (objs.map RawExtension.Raw))]))

/-- Marshal a `ConversionResponse` (`convertedObjects` has `omitempty`;
`uid` and `result` do not). -/
def marshalConversionResponse (resp : ConversionResponse) : Json :=
  Json.obj
    ([("uid", Json.str resp.UID)] ++
     (match resp.ConvertedObjects with
      | [] => []
      | objs => [("convertedObjects", Json.arr (objs.map RawExtension.Raw))]) ++
     [("result", marshalMetaV1Status resp.Result)])

/-- `json.Marshal(review)`: nil `request`/`response` pointers are omitted. -/
def marshalConversionReview (r : ConversionReview) : Json :=
  Json.obj
    (marshalTypeMetaFields r.typeMeta ++
     (match r.Request with
      | none => []
      | some req => [("request", marshalConversionRequest req)]) ++
     (match r.Response with
      | none => []
      | some resp => [("response", marshalConversionResponse resp)]))

/-! ### The handler (`pkg/webhook/handler.go`) -/

/-- One iteration of the loop body of `HandleConvert`: `none` models `continue`
after a failed decode (the object is skipped), `some` the appended output. -/
def processObject (desiredAPIVersion : String) (obj : RawExtension) :
    Option RawExtension :=
  match unmarshalTypeMeta obj.Raw with
  | .error _ => none
  | .ok objMeta =>
    if objMeta.APIVersion == "conversion.example.com/v1" &&
       desiredAPIVersion == "conversion.example.com/v2" then
      match unmarshalExampleV1 obj.Raw with
      | .error _ => none
      | .ok v1Obj => some { Raw := marshalExampleV2 (convertV1ToV2 v1Obj) }
    else if objMeta.APIVersion == "conversion.example.com/v2" &&
            desiredAPIVersion == "conversion.example.com/v1" then
      match unmarshalExampleV2 obj.Raw with
      | .error _ => none
      | .ok v2Obj => some { Raw := marshalExampleV1 (convertV2ToV1 v2Obj) }
    else
      some obj

/-- The whole object loop of `HandleConvert`, in request order. -/
def processObjects (desiredAPIVersion : String) (objs : List RawExtension) :
    List RawExtension :=
  objs.filterMap (processObject desiredAPIVersion)

/-- The `ConversionResponse` literal `HandleConvert` builds. -/
def buildResponse (req : ConversionRequest) : ConversionResponse :=
  { UID := req.UID
    ConvertedObjects := processObjects req.DesiredAPIVersion req.Objects
    Result := { Status := "Success" } }

/-- What the handler writes back (or fails with). -/
inductive HandlerOutcome where
  | jsonResponse (body : Json) : HandlerOutcome
  | plainResponse (status : Nat) (body : String) : HandlerOutcome
  | panic : HandlerOutcome
deriving Repr

/-- The HTTP status code of an outcome; a panicking handler writes none. -/
def HandlerOutcome.statusCode : HandlerOutcome → Option Nat
  | .jsonResponse _ => some 200
  | .plainResponse s _ => some s
  | .panic => none

/-- The Content-Type header of an outcome (`http.Error` and the health
handler write plain text). -/
def HandlerOutcome.contentType : HandlerOutcome → Option String
  | .jsonResponse _ => some "application/json"
  | .plainResponse _ _ => some "text/plain; charset=utf-8"
  | .panic => none

/-- `HandleConvert` after a successful `json.Unmarshal` of the body:
`req := review.Request` is a nil pointer when the `request` field was absent
or `null`, and `range req.Objects` then dereferences nil — a runtime panic. -/
def handleParsedReview (review : ConversionReview) : HandlerOutcome :=
  match review.Request with
  | none => .panic
  | some req =>
    let response := buildResponse req
    HandlerOutcome.jsonResponse
      (marshalConversionReview
        { review with Response := some response, Request := none })

/-- The request body as the handler sees it: reading can fail, and the bytes
read either are not valid JSON or encode some JSON document. -/
inductive BodyBytes where
  | invalidJson (errMsg : String) : BodyBytes
  | jsonValue (j : Json) : BodyBytes

/-- `HandleConvert` (`pkg/webhook/handler.go`): 400 on a read error or an
unparseable body, otherwise process the parsed review.  `json.Marshal` of the
response review cannot fail on the values this model produces, so the 500
branch of the source is unreachable here. -/
def handleConvert (body : Except String BodyBytes) : HandlerOutcome :=
  match body with
  | .error e => .plainResponse 400 e
  | .ok (.invalidJson e) => .plainResponse 400 e
  | .ok (.jsonValue j) =>
    match unmarshalConversionReview j with
    | .error e => .plainResponse 400 e
    | .ok review => handleParsedReview review

/-! ### Server wiring (`cmd/webhook/main.go`) -/

/-- An incoming HTTP request as the two registered handlers observe it. -/
structure HttpRequest where
  method : String
  path : String
  body : Except String BodyBytes

/-- The `/health` handler: writes 200 and the fixed body `OK`,
ignoring the request entirely. -/
def handleHealth (_ : HttpRequest) : HandlerOutcome :=
  .plainResponse 200 "OK"

/-- The `http.HandleFunc` registrations of `main`: exact-path dispatch to the
two handlers, the default mux's 404 otherwise. -/
def serveMux (r : HttpRequest) : HandlerOutcome :=
  if r.path = "/convert" then handleConvert r.body
  else if r.path = "/health" then handleHealth r
  else .plainResponse 404 "404 page not found"

/-! ### Helper lemmas -/

theorem lookup_append_of_keys_ne {β : Type} (k : String) (l1 l2 : List (String × β))
    (h : ∀ p ∈ l1, p.1 ≠ k) : (l1 ++ l2).lookup k = l2.lookup k := by
  induction l1 with
  | nil => simp
  | cons p t ih =>
    obtain ⟨a, b⟩ := p
    have hb : (k == a) = false :=
      beq_eq_false_iff_ne.mpr (Ne.symm (h (a, b) (List.mem_cons_self _ _)))
    simp [List.lookup, hb]
    exact ih fun q hq => h q (List.mem_cons_of_mem _ hq)

theorem lookup_marshalTypeMetaFields (tm : TypeMeta) (k : String)
    (h1 : k ≠ "kind") (h2 : k ≠ "apiVersion") (rest : List (String × Json)) :
    (marshalTypeMetaFields tm ++ rest).lookup k = rest.lookup k := by
  refine lookup_append_of_keys_ne k _ rest ?_
  intro p hp
  unfold marshalTypeMetaFields at hp
  rcases List.mem_append.mp hp with hk | ha
  · split at hk <;> simp_all
    exact fun h => h1 (h ▸ rfl)
  · split at ha <;> simp_all
    exact fun h => h2 (h ▸ rfl)

theorem length_filterMap_of_isSome {α β : Type} (p : α → Option β) :
    ∀ l : List α, (∀ o ∈ l, (p o).isSome) → (l.filterMap p).length = l.length := by
  intro l h
  induction l with
  | nil => simp
  | cons a t ih =>
    obtain ⟨b, hb⟩ := Option.isSome_iff_exists.mp (h a (List.mem_cons_self _ _))
    rw [List.filterMap_cons, hb]
    simp only [List.length_cons]
    rw [ih fun o ho => h o (List.mem_cons_of_mem _ ho)]

theorem marshalExampleV1Spec_no_field2 (s : ExampleV1Spec) :
    (marshalExampleV1Spec s).getField "field2" = none := by
  unfold marshalExampleV1Spec
  simp only [Json.getField]
  split <;> simp [List.lookup]

theorem getField_spec_of_convertV2ToV1 (o : ExampleV2) :
    (marshalExampleV1 (convertV2ToV1 o)).getField "spec" =
      some (marshalExampleV1Spec (convertV2ToV1 o).Spec) := by
  simp [marshalExampleV1, convertV2ToV1, marshalTypeMetaFields, Json.getField, List.lookup]

/-! ### Claims -/

/-- C3: `convertV1ToV2` leaves `field1` unchanged and deterministically sets
`field2` to the fixed default `default-v2-value`; the spec's concrete request
(uid `abc`, desired version v2, one v1 object named `x` with `field1 = hello`)
produces exactly the stated v2 object with the default `field2`. -/
theorem c3_convertV1ToV2_default_injection :
    (∀ r : ExampleV1, (convertV1ToV2 r).Spec.Field1 = r.Spec.Field1 ∧
        (convertV1ToV2 r).Spec.Field2 = "default-v2-value") ∧
    handleConvert (.ok (.jsonValue (Json.obj
        [("request", Json.obj
          [("uid", Json.str "abc"),
           ("desiredAPIVersion", Json.str "conversion.example.com/v2"),
           ("objects", Json.arr
             [Json.obj
               [("apiVersion", Json.str "conversion.example.com/v1"),
                ("kind", Json.str "Example"),
                ("metadata", Json.obj [("name", Json.str "x")]),
                ("spec", Json.obj [("field1", Json.str "hello")])]])])]))) =
      HandlerOutcome.jsonResponse (Json.obj
        [("response", Json.obj
          [("uid", Json.str "abc"),
           ("convertedObjects", Json.arr
             [Json.obj
               [("kind", Json.str "Example"),
                ("apiVersion", Json.str "conversion.example.com/v2"),
                ("metadata", Json.obj [("name", Json.str "x")]),
                ("spec", Json.obj
                  [("field1", Json.str "hello"),
                   ("field2", Json.str "default-v2-value")])]]),
           ("result", Json.obj
             [("metadata", Json.obj []),
              ("status", Json.str "Success")])])]) :=
  ⟨fun _ => ⟨rfl, rfl⟩, rfl⟩

/-- C4: `convertV2ToV1` keeps `field1` unchanged and the serialised output
spec contains no `field2` key at all. -/
theorem c4_convertV2ToV1_drops_field2 :
    ∀ o : ExampleV2, (convertV2ToV1 o).Spec.Field1 = o.Spec.Field1 ∧
      ∃ sj : Json, (marshalExampleV1 (convertV2ToV1 o)).getField "spec" = some sj ∧
        sj.getField "field2" = none :=
  fun o => ⟨rfl, _, getField_spec_of_convertV2ToV1 o, marshalExampleV1Spec_no_field2 _⟩

/-- C5 counterexample: a parseable v1 object whose `kind` is `Gadget` comes
back from the round trip with `kind` rewritten to the constant `Example`
(both conversions hard-code it), so the round trip does not preserve the
identity metadata — which includes the kind — of every valid v1 object. -/
theorem c5_counterexample :
    unmarshalExampleV1 (Json.obj
        [("apiVersion", Json.str "conversion.example.com/v1"),
         ("kind", Json.str "Gadget"),
         ("metadata", Json.obj [("name", Json.str "g")]),
         ("spec", Json.obj [("field1", Json.str "a")])]) =
      Except.ok { typeMeta := { Kind := "Gadget", APIVersion := "conversion.example.com/v1" },
                  objectMeta := { Name := "g", Namespace := "", Labels := [] },
                  Spec := { Field1 := "a" }, Status := none } ∧
    (convertV2ToV1 (convertV1ToV2
        { typeMeta := { Kind := "Gadget", APIVersion := "conversion.example.com/v1" },
          objectMeta := { Name := "g", Namespace := "", Labels := [] },
          Spec := { Field1 := "a" }, Status := none })).typeMeta.Kind = "Example" ∧
    ("Example" : String) ≠ "Gadget" :=
  ⟨rfl, rfl, by decide⟩

/-- C5 amended: the round trip `convertV2ToV1 (convertV1ToV2 r)` preserves
the `ObjectMeta` (name, namespace, labels), the opaque status and
`spec.field1` exactly; the round-tripped `kind` and `apiVersion` are the
constants `Example` and `conversion.example.com/v1`, so they equal the
source's exactly when the source already carries them; and the `field2`
value the forward conversion introduced is discarded by the reverse
conversion (no `field2` key in the round-tripped spec). -/
theorem c5_round_trip_lossy :
    ∀ r : ExampleV1,
      (convertV2ToV1 (convertV1ToV2 r)).objectMeta = r.objectMeta ∧
      (convertV2ToV1 (convertV1ToV2 r)).Status = r.Status ∧
      (convertV2ToV1 (convertV1ToV2 r)).Spec.Field1 = r.Spec.Field1 ∧
      (r.typeMeta.Kind = "Example" →
        (convertV2ToV1 (convertV1ToV2 r)).typeMeta.Kind = r.typeMeta.Kind) ∧
      (r.typeMeta.APIVersion = "conversion.example.com/v1" →
        (convertV2ToV1 (convertV1ToV2 r)).typeMeta.APIVersion = r.typeMeta.APIVersion) ∧
      (convertV1ToV2 r).Spec.Field2 = "default-v2-value" ∧
      ∃ sj : Json,
        (marshalExampleV1 (convertV2ToV1 (convertV1ToV2 r))).getField "spec" = some sj ∧
        sj.getField "field2" = none :=
  fun r => ⟨rfl, rfl, rfl, fun h => h.symm, fun h => h.symm, rfl, _,
    getField_spec_of_convertV2ToV1 (convertV1ToV2 r),
    marshalExampleV1Spec_no_field2 _⟩

/-- C5 witness: the round-trip facts evaluated on a concrete v1 object that
already carries kind `Example` and apiVersion `conversion.example.com/v1`. -/
theorem c5_witness :
    (convertV2ToV1 (convertV1ToV2
        { typeMeta := { Kind := "Example", APIVersion := "conversion.example.com/v1" },
          objectMeta := { Name := "rt", Namespace := "ns", Labels := [("k", "v")] },
          Spec := { Field1 := "hello" }, Status := some (Json.num 3) })).objectMeta =
      { Name := "rt", Namespace := "ns", Labels := [("k", "v")] } ∧
    (convertV2ToV1 (convertV1ToV2
        { typeMeta := { Kind := "Example", APIVersion := "conversion.example.com/v1" },
          objectMeta := { Name := "rt", Namespace := "ns", Labels := [("k", "v")] },
          Spec := { Field1 := "hello" }, Status := some (Json.num 3) })).typeMeta.Kind =
      "Example" ∧
    (convertV2ToV1 (convertV1ToV2
        { typeMeta := { Kind := "Example", APIVersion := "conversion.example.com/v1" },
          objectMeta := { Name := "rt", Namespace := "ns", Labels := [("k", "v")] },
          Spec := { Field1 := "hello" }, Status := some (Json.num 3) })).typeMeta.APIVersion =
      "conversion.example.com/v1" := by
  have h := c5_round_trip_lossy
    { typeMeta := { Kind := "Example", APIVersion := "conversion.example.com/v1" },
      objectMeta := { Name := "rt", Namespace := "ns", Labels := [("k", "v")] },
      Spec := { Field1 := "hello" }, Status := some (Json.num 3) }
  exact ⟨h.1, h.2.2.2.1 rfl, h.2.2.2.2.1 rfl⟩

/-- C7 counterexample: a parseable v1 object whose `kind` is `Widget` has its
`kind` rewritten to the constant `Example` by `convertV1ToV2`, so the claim
that the kind is passed through unchanged for every valid source object is
false. -/
theorem c7_counterexample :
    unmarshalExampleV1 (Json.obj
        [("apiVersion", Json.str "conversion.example.com/v1"),
         ("kind", Json.str "Widget"),
         ("metadata", Json.obj [("name", Json.str "w")]),
         ("spec", Json.obj [("field1", Json.str "a")])]) =
      Except.ok { typeMeta := { Kind := "Widget", APIVersion := "conversion.example.com/v1" },
                  objectMeta := { Name := "w", Namespace := "", Labels := [] },
                  Spec := { Field1 := "a" }, Status := none } ∧
    (convertV1ToV2
        { typeMeta := { Kind := "Widget", APIVersion := "conversion.example.com/v1" },
          objectMeta := { Name := "w", Namespace := "", Labels := [] },
          Spec := { Field1 := "a" }, Status := none }).typeMeta.Kind = "Example" ∧
    "Example" ≠ "Widget" :=
  ⟨rfl, rfl, by decide⟩

/-- C7 amended: both conversions pass the `ObjectMeta` (name, namespace,
labels) and the opaque status through unchanged in both directions; the
output `kind` is the constant `Example`, which coincides with the source's
kind exactly when the source's kind is `Example`. -/
theorem c7_metadata_status_passthrough :
    ∀ (a : ExampleV1) (b : ExampleV2),
      (convertV1ToV2 a).objectMeta = a.objectMeta ∧
      (convertV1ToV2 a).Status = a.Status ∧
      (convertV2ToV1 b).objectMeta = b.objectMeta ∧
      (convertV2ToV1 b).Status = b.Status ∧
      (a.typeMeta.Kind = "Example" →
        (convertV1ToV2 a).typeMeta.Kind = a.typeMeta.Kind) ∧
      (b.typeMeta.Kind = "Example" →
        (convertV2ToV1 b).typeMeta.Kind = b.typeMeta.Kind) :=
  fun _ _ => ⟨rfl, rfl, rfl, rfl, fun h => h.symm, fun h => h.symm⟩

/-- C7 witness: the passthrough facts evaluated on concrete v1 and v2 objects
whose kind is `Example`. -/
theorem c7_witness :
    (convertV1ToV2
        { typeMeta := { Kind := "Example", APIVersion := "conversion.example.com/v1" },
          objectMeta := { Name := "n", Namespace := "ns", Labels := [("app", "demo")] },
          Spec := { Field1 := "f" }, Status := some (Json.str "ok") }).objectMeta =
      { Name := "n", Namespace := "ns", Labels := [("app", "demo")] } ∧
    (convertV1ToV2
        { typeMeta := { Kind := "Example", APIVersion := "conversion.example.com/v1" },
          objectMeta := { Name := "n", Namespace := "ns", Labels := [("app", "demo")] },
          Spec := { Field1 := "f" }, Status := some (Json.str "ok") }).typeMeta.Kind = "Example" ∧
    (convertV2ToV1
        { typeMeta := { Kind := "Example", APIVersion := "conversion.example.com/v2" },
          objectMeta := { Name := "n", Namespace := "ns", Labels := [("app", "demo")] },
          Spec := { Field1 := "f", Field2 := "g" }, Status := some (Json.str "ok") }).typeMeta.Kind =
      "Example" := by
  have h := c7_metadata_status_passthrough
    { typeMeta := { Kind := "Example", APIVersion := "conversion.example.com/v1" },
      objectMeta := { Name := "n", Namespace := "ns", Labels := [("app", "demo")] },
      Spec := { Field1 := "f" }, Status := some (Json.str "ok") }
    { typeMeta := { Kind := "Example", APIVersion := "conversion.example.com/v2" },
      objectMeta := { Name := "n", Namespace := "ns", Labels := [("app", "demo")] },
      Spec := { Field1 := "f", Field2 := "g" }, Status := some (Json.str "ok") }
  exact ⟨h.1, h.2.2.2.2.1 rfl, h.2.2.2.2.2 rfl⟩

/-- C6: an object whose pre-parsed source version together with the batch's
desired version matches neither conversion pair is re-emitted unchanged: the
output entry is the very input `RawExtension`, with no re-serialisation. -/
theorem c6_passthrough_unchanged (obj : RawExtension) (desired : String) (tm : TypeMeta)
    (hpre : unmarshalTypeMeta obj.Raw = .ok tm)
    (h1 : ¬(tm.APIVersion = "conversion.example.com/v1" ∧
            desired = "conversion.example.com/v2"))
    (h2 : ¬(tm.APIVersion = "conversion.example.com/v2" ∧
            desired = "conversion.example.com/v1")) :
    processObject desired obj = some obj := by
  have e1 : (tm.APIVersion == "conversion.example.com/v1" &&
      desired == "conversion.example.com/v2") = false := by
    by_cases hv : tm.APIVersion = "conversion.example.com/v1"
    · by_cases hd : desired = "conversion.example.com/v2"
      · exact absurd ⟨hv, hd⟩ h1
      · simp [hd]
    · simp [hv]
  have e2 : (tm.APIVersion == "conversion.example.com/v2" &&
      desired == "conversion.example.com/v1") = false := by
    by_cases hv : tm.APIVersion = "conversion.example.com/v2"
    · by_cases hd : desired = "conversion.example.com/v1"
      · exact absurd ⟨hv, hd⟩ h2
      · simp [hd]
    · simp [hv]
  unfold processObject
  rw [hpre]
  simp [e1, e2]

/-- C6 witness: an object already at the desired version v2 passes through
unchanged. -/
theorem c6_witness :
    processObject "conversion.example.com/v2"
      { Raw := Json.obj [("apiVersion", Json.str "conversion.example.com/v2"),
                         ("kind", Json.str "Example")] } =
    some { Raw := Json.obj [("apiVersion", Json.str "conversion.example.com/v2"),
                            ("kind", Json.str "Example")] } :=
  c6_passthrough_unchanged _ _
    { Kind := "Example", APIVersion := "conversion.example.com/v2" }
    rfl (by decide) (by decide)

/-- The serialised spec of a forward-converted object always carries
`field2 = default-v2-value`. -/
theorem getField_spec_field2_of_convertV1ToV2 (o : ExampleV1) :
    ((marshalExampleV2 (convertV1ToV2 o)).getField "spec").bind
        (fun sj => sj.getField "field2") = some (Json.str "default-v2-value") := by
  have hs : (marshalExampleV2 (convertV1ToV2 o)).getField "spec" =
      some (marshalExampleV2Spec (convertV1ToV2 o).Spec) := by
    simp [marshalExampleV2, convertV1ToV2, marshalTypeMetaFields, Json.getField, List.lookup]
  rw [hs]
  show (marshalExampleV2Spec (convertV1ToV2 o).Spec).getField "field2" =
    some (Json.str "default-v2-value")
  unfold marshalExampleV2Spec convertV1ToV2
  simp only [Json.getField]
  split <;> simp [List.lookup]

/-- C10: the `field2` default is injected unconditionally: whenever a raw
object pre-parses to source version v1 and fully parses as `ExampleV1`
(any `field2` in its raw spec being discarded by that typed parse), the
converted output's `spec.field2` is exactly `default-v2-value`. -/
theorem c10_field2_default_unconditional (raw : Json) (tm : TypeMeta) (v1Obj : ExampleV1)
    (hpre : unmarshalTypeMeta raw = .ok tm)
    (hv : tm.APIVersion = "conversion.example.com/v1")
    (hfull : unmarshalExampleV1 raw = .ok v1Obj) :
    processObject "conversion.example.com/v2" { Raw := raw } =
      some { Raw := marshalExampleV2 (convertV1ToV2 v1Obj) } ∧
    ((marshalExampleV2 (convertV1ToV2 v1Obj)).getField "spec").bind
        (fun sj => sj.getField "field2") = some (Json.str "default-v2-value") := by
  constructor
  · unfold processObject
    simp only [hpre, hv, hfull]
    simp
  · exact getField_spec_field2_of_convertV1ToV2 v1Obj

/-- C10 witness: a raw v1 payload whose spec carries `field2 = custom` still
converts to an object whose serialised `field2` is the default. -/
theorem c10_witness :
    processObject "conversion.example.com/v2"
      { Raw := Json.obj
          [("apiVersion", Json.str "conversion.example.com/v1"),
           ("kind", Json.str "Example"),
           ("metadata", Json.obj [("name", Json.str "x")]),
           ("spec", Json.obj [("field1", Json.str "hello"),
                              ("field2", Json.str "custom")])] } =
      some { Raw := marshalExampleV2 (convertV1ToV2
        { typeMeta := { Kind := "Example", APIVersion := "conversion.example.com/v1" },
          objectMeta := { Name := "x", Namespace := "", Labels := [] },
          Spec := { Field1 := "hello" }, Status := none }) } ∧
    ((marshalExampleV2 (convertV1ToV2
        { typeMeta := { Kind := "Example", APIVersion := "conversion.example.com/v1" },
          objectMeta := { Name := "x", Namespace := "", Labels := [] },
          Spec := { Field1 := "hello" }, Status := none })).getField "spec").bind
        (fun sj => sj.getField "field2") = some (Json.str "default-v2-value") :=
  c10_field2_default_unconditional _
    { Kind := "Example", APIVersion := "conversion.example.com/v1" } _ rfl rfl rfl

theorem getField_response_of_marshalConversionReview (r : ConversionReview)
    (resp : ConversionResponse) (hreq : r.Request = none) (hresp : r.Response = some resp) :
    (marshalConversionReview r).getField "response" =
      some (marshalConversionResponse resp) := by
  unfold marshalConversionReview
  rw [hreq, hresp]
  simp only [Json.getField, List.append_assoc]
  rw [lookup_marshalTypeMetaFields _ _ (by decide) (by decide)]
  simp [List.lookup]

theorem getField_request_of_marshalConversionReview (r : ConversionReview)
    (hreq : r.Request = none) :
    (marshalConversionReview r).getField "request" = none := by
  unfold marshalConversionReview
  rw [hreq]
  simp only [Json.getField, List.append_assoc]
  rw [lookup_marshalTypeMetaFields _ _ (by decide) (by decide)]
  cases r.Response <;> simp [List.lookup]

theorem getField_uid_of_marshalConversionResponse (resp : ConversionResponse) :
    (marshalConversionResponse resp).getField "uid" = some (Json.str resp.UID) := by
  unfold marshalConversionResponse
  simp [Json.getField, List.lookup]

theorem getField_result_of_marshalConversionResponse (resp : ConversionResponse) :
    (marshalConversionResponse resp).getField "result" =
      some (marshalMetaV1Status resp.Result) := by
  unfold marshalConversionResponse
  simp only [Json.getField]
  split <;> simp [List.lookup]

/-- C1 counterexample: the body `\x7b\x7d` parses as a `ConversionReview` whose
`request` field is absent, and the handler then panics on the nil `request`
pointer instead of responding with HTTP 200. -/
theorem c1_counterexample :
    unmarshalConversionReview (Json.obj []) =
      Except.ok { typeMeta := { Kind := "", APIVersion := "" },
                  Request := none, Response := none } ∧
    handleConvert (.ok (.jsonValue (Json.obj []))) = HandlerOutcome.panic ∧
    (handleConvert (.ok (.jsonValue (Json.obj [])))).statusCode ≠ some 200 :=
  ⟨rfl, rfl, by decide⟩

/-- C1 amended: for every body that parses as a `ConversionReview` envelope
whose `request` field is present and non-null, the handler responds HTTP 200
with a JSON body whose `response.uid` echoes the request's uid, whose
`response.result.status` is `Success`, and which carries no `request` key;
when the `request` field is absent or null the handler instead panics on a
nil-pointer dereference and produces no such response. -/
theorem c1_success_envelope (j : Json) (review : ConversionReview) (req : ConversionRequest)
    (hparse : unmarshalConversionReview j = .ok review)
    (hreq : review.Request = some req) :
    ∃ body : Json,
      handleConvert (.ok (.jsonValue j)) = .jsonResponse body ∧
      (handleConvert (.ok (.jsonValue j))).statusCode = some 200 ∧
      (handleConvert (.ok (.jsonValue j))).contentType = some "application/json" ∧
      (body.getField "response").bind (fun resp => resp.getField "uid") =
        some (Json.str req.UID) ∧
      ((body.getField "response").bind (fun resp => resp.getField "result")).bind
        (fun res => res.getField "status") = some (Json.str "Success") ∧
      body.getField "request" = none := by
  have hhc : handleConvert (.ok (.jsonValue j)) =
      .jsonResponse (marshalConversionReview
        { review with Response := some (buildResponse req), Request := none }) := by
    simp [handleConvert, hparse, handleParsedReview, hreq]
  refine ⟨_, hhc, by rw [hhc]; rfl, by rw [hhc]; rfl, ?_, ?_, ?_⟩
  · rw [getField_response_of_marshalConversionReview _ (buildResponse req) rfl rfl]
    simp only [Option.some_bind]
    rw [getField_uid_of_marshalConversionResponse]
    rfl
  · rw [getField_response_of_marshalConversionReview _ (buildResponse req) rfl rfl]
    simp only [Option.some_bind]
    rw [getField_result_of_marshalConversionResponse]
    rfl
  · exact getField_request_of_marshalConversionReview _ rfl

/-- C1 witness: the guaranteed response shape evaluated on a concrete
envelope whose `request` field is present. -/
theorem c1_witness :
    ∃ body : Json,
      handleConvert (.ok (.jsonValue (Json.obj
        [("request", Json.obj [("uid", Json.str "abc")])]))) = .jsonResponse body ∧
      (handleConvert (.ok (.jsonValue (Json.obj
        [("request", Json.obj [("uid", Json.str "abc")])])))).statusCode = some 200 ∧
      (handleConvert (.ok (.jsonValue (Json.obj
        [("request", Json.obj [("uid", Json.str "abc")])])))).contentType =
        some "application/json" ∧
      (body.getField "response").bind (fun resp => resp.getField "uid") =
        some (Json.str "abc") ∧
      ((body.getField "response").bind (fun resp => resp.getField "result")).bind
        (fun res => res.getField "status") = some (Json.str "Success") ∧
      body.getField "request" = none :=
  c1_success_envelope (Json.obj [("request", Json.obj [("uid", Json.str "abc")])])
    { typeMeta := { Kind := "", APIVersion := "" },
      Request := some { UID := "abc", DesiredAPIVersion := "", Objects := [] },
      Response := none }
    { UID := "abc", DesiredAPIVersion := "", Objects := [] } rfl rfl

/-- C2: in a batch whose objects split as `A ++ m :: B` with `m` malformed
(its decode fails) and every object of `A` and `B` well-formed, the
response's `convertedObjects` is the in-order processing of `A` then `B`,
its length is `N - 1`, the result status is `Success`, and the HTTP status
is 200. -/
theorem c2_malformed_object_skipped (review : ConversionReview) (req : ConversionRequest)
    (A B : List RawExtension) (m : RawExtension)
    (hreq : review.Request = some req)
    (hobjs : req.Objects = A ++ m :: B)
    (hA : ∀ o ∈ A, (processObject req.DesiredAPIVersion o).isSome)
    (hm : processObject req.DesiredAPIVersion m = none)
    (hB : ∀ o ∈ B, (processObject req.DesiredAPIVersion o).isSome) :
    (buildResponse req).ConvertedObjects =
      A.filterMap (processObject req.DesiredAPIVersion) ++
      B.filterMap (processObject req.DesiredAPIVersion) ∧
    (A.filterMap (processObject req.DesiredAPIVersion)).length = A.length ∧
    (B.filterMap (processObject req.DesiredAPIVersion)).length = B.length ∧
    (buildResponse req).ConvertedObjects.length = A.length + B.length ∧
    (buildResponse req).Result.Status = "Success" ∧
    (handleParsedReview review).statusCode = some 200 := by
  have hsplit : (buildResponse req).ConvertedObjects =
      A.filterMap (processObject req.DesiredAPIVersion) ++
      B.filterMap (processObject req.DesiredAPIVersion) := by
    simp [buildResponse, processObjects, hobjs, List.filterMap_append,
      List.filterMap_cons, hm]
  have hlA := length_filterMap_of_isSome (processObject req.DesiredAPIVersion) A hA
  have hlB := length_filterMap_of_isSome (processObject req.DesiredAPIVersion) B hB
  refine ⟨hsplit, hlA, hlB, ?_, rfl, ?_⟩
  · rw [hsplit, List.length_append, hlA, hlB]
  · simp [handleParsedReview, hreq, HandlerOutcome.statusCode]

/-- C2 witness: a three-object batch whose middle object is malformed yields
two in-order outputs, status `Success` and HTTP 200. -/
theorem c2_witness :
    (buildResponse
      { UID := "u", DesiredAPIVersion := "conversion.example.com/v2",
        Objects := [{ Raw := Json.obj [("apiVersion", Json.str "conversion.example.com/v2"),
                                       ("kind", Json.str "Example")] },
                    { Raw := Json.str "junk" },
                    { Raw := Json.obj [("apiVersion", Json.str "other/v9")] }] }).ConvertedObjects.length = 2 ∧
    (buildResponse
      { UID := "u", DesiredAPIVersion := "conversion.example.com/v2",
        Objects := [{ Raw := Json.obj [("apiVersion", Json.str "conversion.example.com/v2"),
                                       ("kind", Json.str "Example")] },
                    { Raw := Json.str "junk" },
                    { Raw := Json.obj [("apiVersion", Json.str "other/v9")] }] }).Result.Status = "Success" ∧
    (handleParsedReview
      { typeMeta := { Kind := "", APIVersion := "" },
        Request := some
          { UID := "u", DesiredAPIVersion := "conversion.example.com/v2",
            Objects := [{ Raw := Json.obj [("apiVersion", Json.str "conversion.example.com/v2"),
                                           ("kind", Json.str "Example")] },
                        { Raw := Json.str "junk" },
                        { Raw := Json.obj [("apiVersion", Json.str "other/v9")] }] },
        Response := none }).statusCode = some 200 := by
  have h := c2_malformed_object_skipped
    { typeMeta := { Kind := "", APIVersion := "" },
      Request := some
        { UID := "u", DesiredAPIVersion := "conversion.example.com/v2",
          Objects := [{ Raw := Json.obj [("apiVersion", Json.str "conversion.example.com/v2"),
                                         ("kind", Json.str "Example")] },
                      { Raw := Json.str "junk" },
                      { Raw := Json.obj [("apiVersion", Json.str "other/v9")] }] },
      Response := none }
    { UID := "u", DesiredAPIVersion := "conversion.example.com/v2",
      Objects := [{ Raw := Json.obj [("apiVersion", Json.str "conversion.example.com/v2"),
                                     ("kind", Json.str "Example")] },
                  { Raw := Json.str "junk" },
                  { Raw := Json.obj [("apiVersion", Json.str "other/v9")] }] }
    [{ Raw := Json.obj [("apiVersion", Json.str "conversion.example.com/v2"),
                        ("kind", Json.str "Example")] }]
    [{ Raw := Json.obj [("apiVersion", Json.str "other/v9")] }]
    { Raw := Json.str "junk" }
    rfl rfl
    (by intro o ho; rw [List.mem_singleton] at ho; subst ho; rfl)
    rfl
    (by intro o ho; rw [List.mem_singleton] at ho; subst ho; rfl)
  exact ⟨h.2.2.2.1, h.2.2.2.2.1, h.2.2.2.2.2⟩

/-- C8: a body that cannot be parsed as a `ConversionReview` (a failed read,
invalid JSON bytes, or a JSON document that does not decode into the
envelope) yields HTTP 400 carrying the parse error text, with no envelope
processing; and every HTTP status the handler ever writes is 200, 400
or 500. -/
theorem c8_unparseable_envelope_400 :
    (∀ e : String, handleConvert (.error e) = .plainResponse 400 e) ∧
    (∀ e : String, handleConvert (.ok (.invalidJson e)) = .plainResponse 400 e) ∧
    (∀ (j : Json) (e : String), unmarshalConversionReview j = .error e →
      handleConvert (.ok (.jsonValue j)) = .plainResponse 400 e) ∧
    (∀ (b : Except String BodyBytes) (s : Nat),
      (handleConvert b).statusCode = some s → s = 200 ∨ s = 400 ∨ s = 500) := by
  refine ⟨fun _ => rfl, fun _ => rfl, ?_, ?_⟩
  · intro j e h
    simp [handleConvert, h]
  · intro b s h
    match b with
    | .error e =>
      simp only [handleConvert, HandlerOutcome.statusCode, Option.some.injEq] at h
      omega
    | .ok (.invalidJson e) =>
      simp only [handleConvert, HandlerOutcome.statusCode, Option.some.injEq] at h
      omega
    | .ok (.jsonValue j) =>
      cases hu : unmarshalConversionReview j with
      | error e =>
        simp only [handleConvert, hu, HandlerOutcome.statusCode, Option.some.injEq] at h
        omega
      | ok review =>
        cases hr : review.Request with
        | none =>
          simp [handleConvert, hu, handleParsedReview, hr, HandlerOutcome.statusCode] at h
        | some req =>
          simp only [handleConvert, hu, handleParsedReview, hr,
            HandlerOutcome.statusCode, Option.some.injEq] at h
          omega

/-- C8 witness: the 400 paths evaluated on concrete bodies, and the
status-code taxonomy instantiated at a concrete request. -/
theorem c8_witness :
    handleConvert (.error "read failure") = .plainResponse 400 "read failure" ∧
    handleConvert (.ok (.invalidJson "invalid character")) =
      .plainResponse 400 "invalid character" ∧
    handleConvert (.ok (.jsonValue (Json.str "x"))) =
      .plainResponse 400 "cannot unmarshal value into ConversionReview" ∧
    ((400 : Nat) = 200 ∨ (400 : Nat) = 400 ∨ (400 : Nat) = 500) := by
  have h := c8_unparseable_envelope_400
  exact ⟨h.1 "read failure", h.2.1 "invalid character",
    h.2.2.1 (Json.str "x") _ rfl, h.2.2.2 (.error "read failure") 400 rfl⟩

/-- C9: every request routed to `/health`, whatever its method or body and
independently of anything on the `/convert` path, gets HTTP 200 with the
fixed body `OK`. -/
theorem c9_health_always_200_ok (r : HttpRequest) (h : r.path = "/health") :
    serveMux r = .plainResponse 200 "OK" := by
  simp [serveMux, h, handleHealth]

/-- C9 witness: a non-GET request with an unreadable body still gets
`200 OK` from `/health`. -/
theorem c9_witness :
    serveMux { method := "DELETE", path := "/health", body := .error "boom" } =
      .plainResponse 200 "OK" :=
  c9_health_always_200_ok _ rfl

end ConversionWebhook
